import Mathlib

/-!
# Verification of the Image Fusion application state machine

A shallow embedding of the state management of `src/index.tsx`: the upload
slot manager, the fuse/invoke gating predicate, the fusion click handler
(encoding, remote call interpretation, result/history update, error
surfacing) and the history store.  The remote generation collaborator is
modelled as an explicit parameter of the fusion handler: either a transport
error carrying a message, or a response with a list of candidates whose
parts may carry inline image data and/or text.

JavaScript conventions mirrored in the embedding:
* a `File` is modelled by its media type string and the base64 rendering of
  its content, so `fileToBase64` is pure: it returns the stored pair;
* `find(p => p.inlineData)` / `find(p => p.text)` test JS truthiness, so a
  part whose `text` is the empty string is *not* found by `find(p => p.text)`;
* `x || fallback` on strings yields `fallback` exactly when `x` is absent
  or empty (both are falsy);
* `response.candidates?.[0]?...` short-circuits to `undefined` when the
  candidate list is empty, modelled by `Option` with a `[]` default for the
  part list.
-/

namespace ImageFusion

/-- A browser `File`, reduced to the two fields the app reads: its MIME
`type` and (the base64 encoding of) its contents. -/
structure File where
  type : String
  data : String
deriving DecidableEq, Repr

/-- The `{ data, mimeType }` pair carried by an inline-data part. -/
structure InlineData where
  mimeType : String
  data : String
deriving DecidableEq, Repr

/-- One content part of a response candidate: may carry inline image data,
text, both, or neither. -/
structure Part where
  inlineData : Option InlineData
  text : Option String
deriving DecidableEq, Repr

/-- `candidate.content`: a list of parts. -/
structure Content where
  parts : List Part
deriving DecidableEq, Repr

/-- One response candidate. -/
structure Candidate where
  content : Content
deriving DecidableEq, Repr

/-- The remote collaborator's response: zero or more candidates. -/
structure GenResponse where
  candidates : List Candidate
deriving DecidableEq, Repr

/-- The `Result` type of `src/index.tsx`: id, data-URL image, caption. -/
structure Result where
  id : String
  image : String
  text : String
deriving DecidableEq, Repr

/-- The state held by the `App` component (the cosmetic rotating loading
message is omitted; the spec marks it display-only). -/
structure AppState where
  imageCount : Nat
  images : List (Option File)
  prompt : String
  loading : Bool
  activeResult : Option Result
  history : List Result
  error : String
deriving DecidableEq, Repr

/-- `useState` initial values of the `App` component. -/
def initialState : AppState :=
  { imageCount := 2
    images := List.replicate 5 none
    prompt := ""
    loading := false
    activeResult := none
    history := []
    error := "" }

/-- `fileToBase64`: with files modelled as (type, base64-content) pairs the
asynchronous read is the pure projection to `{ data, mimeType: file.type }`. -/
def fileToBase64 (file : File) : InlineData :=
  { mimeType := file.type, data := file.data }

/-- JS `s || d` for strings: the empty string is falsy. -/
def jsOrString (s d : String) : String :=
  if s = "" then d else s

/-- JS `String.prototype.startsWith(pre)` (written with structural list
recursion so that it evaluates). -/
def jsStartsWith (s pre : String) : Bool :=
  pre.data.isPrefixOf s.data

/-- JS `String.prototype.trim()`: drop whitespace from both ends
(written with structural list recursion so that it evaluates). -/
def jsTrim (s : String) : String :=
  ⟨((s.data.dropWhile Char.isWhitespace).reverse.dropWhile
      Char.isWhitespace).reverse⟩

/-- `images.slice(0, imageCount).filter(Boolean)`: the populated slots among
the first `imageCount`. -/
def uploadedImages (s : AppState) : List File :=
  (s.images.take s.imageCount).filterMap id

/-- `isFuseDisabled`:
`loading || !prompt.trim() || uploadedImages.length !== imageCount`. -/
def isFuseDisabled (s : AppState) : Bool :=
  s.loading || jsTrim s.prompt == "" || (uploadedImages s).length != s.imageCount

/-- `handleImageCountChange` nulls `newImages[i]` for every `i` in
`[count, newImages.length)`; this helper keeps the first `n` entries and
replaces the rest by `none`. -/
def clearFrom (n : Nat) : List (Option File) → List (Option File)
  | [] => []
  | x :: xs =>
    match n with
    | 0 => none :: clearFrom 0 xs
    | m + 1 => x :: clearFrom m xs

/-- `handleImageCountChange`: set the count, null out slots at index ≥ count. -/
def handleImageCountChange (count : Nat) (s : AppState) : AppState :=
  { s with imageCount := count, images := clearFrom count s.images }

/-- `handleFileChange(index, file)`: an image file is stored and clears the
error; a non-image file only sets the error; a null file does nothing. -/
def handleFileChange (index : Nat) (file : Option File) (s : AppState) : AppState :=
  match file with
  | some f =>
    if jsStartsWith f.type "image/" then
      { s with images := s.images.set index (some f), error := "" }
    else
      { s with error := "Please upload only image files." }
  | none => s

/-- `handleRemoveImage(index)`: null out slot `index`. -/
def handleRemoveImage (index : Nat) (s : AppState) : AppState :=
  { s with images := s.images.set index none }

/-- `handleSelectHistory(item)`: make the item the active result. -/
def handleSelectHistory (item : Result) (s : AppState) : AppState :=
  { s with activeResult := some item }

/-- The prompt textarea / example-button `setPrompt`. -/
def setPrompt (p : String) (s : AppState) : AppState :=
  { s with prompt := p }

/-- `response.candidates?.[0]?.content.parts`: the first candidate's parts,
or `[]` when there is no candidate (optional chaining yields `undefined`,
on which the two `find`s return `undefined`). -/
def firstCandidateParts (resp : GenResponse) : List Part :=
  ((resp.candidates.head?).map fun c => c.content.parts).getD []

/-- `parts.find(p => p.inlineData)?.inlineData`: the first part carrying
inline data, projected to that data. -/
def findImagePart (ps : List Part) : Option InlineData :=
  (ps.find? fun p => p.inlineData.isSome).bind fun p => p.inlineData

/-- `parts.find(p => p.text)?.text`: the first part whose `text` is truthy
(present and non-empty), projected to its text. -/
def findTextPart (ps : List Part) : Option String :=
  (ps.find? fun p => p.text.getD "" != "").bind fun p => p.text

/-- The `Result` built on the success path of `handleFuseClick`:
`Date.now()` is the `now` parameter; caption falls back when no truthy text
part exists. -/
def mkResult (now : Nat) (idata : InlineData) (ps : List Part) : Result :=
  { id := toString now
    image := "data:" ++ idata.mimeType ++ ";base64," ++ idata.data
    text := (findTextPart ps).getD "Here is your fused image!" }

/-- `handleFuseClick`, with the remote call abstracted as an
`Except String GenResponse` input (transport-error message or response) and
`Date.now()` as the `now` parameter.  The handler sets loading, clears the
error and the active result, encodes the populated slots, guards the
count-mismatch, interprets the response (first inline-data part, first
truthy text part), then on success installs the new result and pushes it on
history truncated to 9 previous entries; every thrown message lands in
`error` via `e.message || '…'`; `finally` clears loading. -/
def handleFuseClick (s : AppState) (remote : Except String GenResponse)
    (now : Nat) : AppState :=
  let s1 : AppState := { s with loading := true, error := "", activeResult := none }
  let imageParts : List InlineData := (uploadedImages s).map fileToBase64
  if imageParts.length != s.imageCount then
    { s1 with
        error := jsOrString "Mismatch in image processing. Please try again."
          "An error occurred while fusing the images."
        loading := false }
  else
    match remote with
    | .error m =>
      { s1 with
          error := jsOrString m "An error occurred while fusing the images."
          loading := false }
    | .ok resp =>
      let parts := firstCandidateParts resp
      match findImagePart parts with
      | some idata =>
        let newResult := mkResult now idata parts
        { s1 with
            activeResult := some newResult
            history := newResult :: s1.history.take 9
            loading := false }
      | none =>
        { s1 with
            error := jsOrString
              ((findTextPart parts).getD
                "The AI could not generate an image from your request.")
              "An error occurred while fusing the images."
            loading := false }

/-- The states reachable from the initial render by the user-triggered
handlers (the count selector offers exactly 2–5; history selection picks an
existing entry). -/
inductive Reachable : AppState → Prop
  | init : Reachable initialState
  | countChange {s} (n : Nat) (_hn : 2 ≤ n ∧ n ≤ 5) :
      Reachable s → Reachable (handleImageCountChange n s)
  | fileChange {s} (i : Nat) (f : Option File) :
      Reachable s → Reachable (handleFileChange i f s)
  | removeImage {s} (i : Nat) :
      Reachable s → Reachable (handleRemoveImage i s)
  | selectHistory {s} (r : Result) (hr : r ∈ s.history) :
      Reachable s → Reachable (handleSelectHistory r s)
  | promptChange {s} (p : String) :
      Reachable s → Reachable (setPrompt p s)
  | fuse {s} (remote : Except String GenResponse) (now : Nat) :
      Reachable s → Reachable (handleFuseClick s remote now)

/-! ## Concrete instances used in scenarios and witnesses -/

/-- A png image file in slot 0 of the demo state. -/
def demoFile1 : File := ⟨"image/png", "AAA"⟩

/-- A jpeg image file in slot 1 of the demo state. -/
def demoFile2 : File := ⟨"image/jpeg", "BBB"⟩

/-- The concrete setup of the spec's scenarios: two populated slots,
prompt "merge these", idle. -/
def demoStart : AppState :=
  { imageCount := 2
    images := [some demoFile1, some demoFile2, none, none, none]
    prompt := "merge these"
    loading := false
    activeResult := none
    history := []
    error := "" }

/-- A distinct successful response for the `k`-th fusion of the
11-sequential-fusions scenario. -/
def demoResp (k : Nat) : GenResponse :=
  ⟨[⟨⟨[⟨some ⟨"image/png", "P" ++ toString k⟩, none⟩]⟩⟩]⟩

/-- The state after `k` sequential successful fusions from `demoStart`,
the `k`-th at time `k` with response `demoResp k`. -/
def demoRun : Nat → AppState
  | 0 => demoStart
  | k + 1 => handleFuseClick (demoRun k) (.ok (demoResp (k + 1))) (k + 1)

/-- The result produced by the `k`-th fusion of the scenario. -/
def demoResult (k : Nat) : Result :=
  ⟨toString k, "data:image/png;base64,P" ++ toString k, "Here is your fused image!"⟩

/-- Response of the C4 scenario: an image part and the text "Fused!". -/
def c4Resp : GenResponse :=
  ⟨[⟨⟨[⟨some ⟨"image/png", "QQQQ"⟩, none⟩, ⟨none, some "Fused!"⟩]⟩⟩]⟩

/-- Response of the C5 scenario: only a text part "unsafe content". -/
def c5Resp : GenResponse :=
  ⟨[⟨⟨[⟨none, some "unsafe content"⟩]⟩⟩]⟩

/-- Response of the C9 scenario: an image part and an empty text part. -/
def c9Resp : GenResponse :=
  ⟨[⟨⟨[⟨some ⟨"image/png", "RRR"⟩, none⟩, ⟨none, some ""⟩]⟩⟩]⟩

/-! ## Basic lemmas about the embedded operations -/

lemma jsOrString_ne (s d : String) (h : s ≠ "") : jsOrString s d = s :=
  if_neg h

lemma jsOrString_ne_empty (m d : String) (hd : d ≠ "") : jsOrString m d ≠ "" := by
  unfold jsOrString
  split
  · exact hd
  · assumption

lemma findTextPart_ne_empty {ps : List Part} {t : String}
    (h : findTextPart ps = some t) : t ≠ "" := by
  unfold findTextPart at h
  cases hf : ps.find? (fun p => p.text.getD "" != "") with
  | none => simp [hf] at h
  | some p =>
    have hp := List.find?_some hf
    simp only [hf, Option.some_bind] at h
    rw [h] at hp
    simpa using hp

lemma getD_findTextPart_ne_empty (ps : List Part) (d : String) (hd : d ≠ "") :
    (findTextPart ps).getD d ≠ "" := by
  cases ht : findTextPart ps with
  | none => simpa using hd
  | some t => simpa using findTextPart_ne_empty ht

lemma findTextPart_eq_none_of_all_empty {ps : List Part}
    (h : ∀ p ∈ ps, p.text.getD "" = "") : findTextPart ps = none := by
  have hf : ps.find? (fun p => p.text.getD "" != "") = none :=
    List.find?_eq_none.mpr (fun p hp => by simpa using h p hp)
  simp [findTextPart, hf]

lemma length_filterMap_take_eq_iff {α : Type} :
    ∀ (n : Nat) (l : List (Option α)), n ≤ l.length →
      (((l.take n).filterMap id).length = n ↔
        ∀ i, i < n → (l.getD i none).isSome)
  | 0, _, _ => by simp
  | n + 1, [], h => by simp at h
  | n + 1, none :: xs, _ => by
    constructor
    · intro hlen
      exfalso
      have h1 : ((xs.take n).filterMap id).length ≤ (xs.take n).length :=
        List.length_filterMap_le _ _
      have h2 : (xs.take n).length ≤ n := by
        simp [List.length_take]
      simp only [List.take_succ_cons, List.filterMap_cons, id] at hlen
      omega
    · intro hall
      have h0 := hall 0 (Nat.succ_pos n)
      simp at h0
  | n + 1, some a :: xs, h => by
    have hn : n ≤ xs.length := by simpa using h
    have ih := length_filterMap_take_eq_iff n xs hn
    constructor
    · intro hlen i hi
      cases i with
      | zero => simp
      | succ j =>
        rw [List.getD_cons_succ]
        refine ih.mp ?_ j (by omega)
        simp only [List.take_succ_cons, List.filterMap_cons, id] at hlen
        simpa using hlen
    · intro hall
      simp only [List.take_succ_cons, List.filterMap_cons, id]
      have : ((xs.take n).filterMap id).length = n := by
        refine ih.mpr fun j hj => ?_
        have := hall (j + 1) (by omega)
        simpa using this
      simpa using this

lemma clearFrom_getD_lt :
    ∀ (n i : Nat) (l : List (Option File)), i < n →
      (clearFrom n l).getD i none = l.getD i none
  | _, _, [], _ => by simp [clearFrom]
  | n + 1, 0, x :: _, _ => by simp [clearFrom]
  | n + 1, i + 1, x :: xs, h => by
    simp only [clearFrom, List.getD_cons_succ]
    exact clearFrom_getD_lt n i xs (by omega)

lemma clearFrom_getD_ge :
    ∀ (n i : Nat) (l : List (Option File)), n ≤ i →
      (clearFrom n l).getD i none = none
  | _, _, [], _ => by simp [clearFrom]
  | 0, 0, x :: xs, _ => by simp [clearFrom]
  | 0, j + 1, x :: xs, _ => by
    simp only [clearFrom, List.getD_cons_succ]
    exact clearFrom_getD_ge 0 j xs (by omega)
  | n + 1, 0, x :: xs, h => by omega
  | n + 1, j + 1, x :: xs, h => by
    simp only [clearFrom, List.getD_cons_succ]
    exact clearFrom_getD_ge n j xs (by omega)

lemma clearFrom_length :
    ∀ (n : Nat) (l : List (Option File)), (clearFrom n l).length = l.length
  | _, [] => by simp [clearFrom]
  | 0, x :: xs => by simp [clearFrom, clearFrom_length 0 xs]
  | n + 1, x :: xs => by simp [clearFrom, clearFrom_length n xs]

lemma getD_set_self (l : List (Option File)) (i : Nat) :
    (l.set i none).getD i none = none := by
  rcases lt_or_ge i l.length with h | h
  · rw [List.getD_eq_getElem?_getD, List.getElem?_set_self (by simpa using h)]
    rfl
  · rw [List.getD_eq_getElem?_getD]
    have hnone : (l.set i none)[i]? = none := by
      rw [List.getElem?_eq_none]
      simpa using h
    rw [hnone]
    rfl

lemma getD_set_ne (l : List (Option File)) (i j : Nat) (h : j ≠ i) :
    (l.set i none).getD j none = l.getD j none := by
  rw [List.getD_eq_getElem?_getD, List.getD_eq_getElem?_getD,
    List.getElem?_set_ne (Ne.symm h)]

/-! ## Branch equations for the fusion handler -/

lemma handleFileChange_none (i : Nat) (s : AppState) :
    handleFileChange i none s = s := rfl

lemma handleFileChange_image {f : File} (h : jsStartsWith f.type "image/" = true)
    (i : Nat) (s : AppState) :
    handleFileChange i (some f) s =
      { s with images := s.images.set i (some f), error := "" } := by
  simp [handleFileChange, h]

lemma handleFileChange_nonimage {f : File}
    (h : jsStartsWith f.type "image/" = false) (i : Nat) (s : AppState) :
    handleFileChange i (some f) s =
      { s with error := "Please upload only image files." } := by
  simp [handleFileChange, h]

lemma fuse_mismatch_eq (s : AppState) (remote : Except String GenResponse)
    (now : Nat) (hne : (uploadedImages s).length ≠ s.imageCount) :
    handleFuseClick s remote now =
      { s with loading := false, activeResult := none,
               error := "Mismatch in image processing. Please try again." } := by
  simp [handleFuseClick, hne,
    jsOrString_ne "Mismatch in image processing. Please try again."
      "An error occurred while fusing the images." (by decide)]

lemma fuse_error_eq (s : AppState) (m : String) (now : Nat)
    (hlen : (uploadedImages s).length = s.imageCount) :
    handleFuseClick s (.error m) now =
      { s with loading := false, activeResult := none,
               error := jsOrString m "An error occurred while fusing the images." } := by
  simp [handleFuseClick, hlen]

lemma fuse_success_eq (s : AppState) (resp : GenResponse) (now : Nat)
    (hlen : (uploadedImages s).length = s.imageCount) (idata : InlineData)
    (himg : findImagePart (firstCandidateParts resp) = some idata) :
    handleFuseClick s (.ok resp) now =
      { s with loading := false, error := "",
               activeResult := some (mkResult now idata (firstCandidateParts resp)),
               history :=
                 mkResult now idata (firstCandidateParts resp) :: s.history.take 9 } := by
  simp [handleFuseClick, hlen, himg]

lemma fuse_noimage_eq (s : AppState) (resp : GenResponse) (now : Nat)
    (hlen : (uploadedImages s).length = s.imageCount)
    (hni : findImagePart (firstCandidateParts resp) = none) :
    handleFuseClick s (.ok resp) now =
      { s with loading := false, activeResult := none,
               error :=
                 (findTextPart (firstCandidateParts resp)).getD
                   "The AI could not generate an image from your request." } := by
  have hne : (findTextPart (firstCandidateParts resp)).getD
      "The AI could not generate an image from your request." ≠ "" := by
    cases ht : findTextPart (firstCandidateParts resp) with
    | none => simp [ht]
    | some t => simpa [ht] using findTextPart_ne_empty ht
  simp [handleFuseClick, hlen, hni,
    jsOrString_ne ((findTextPart (firstCandidateParts resp)).getD
      "The AI could not generate an image from your request.")
      "An error occurred while fusing the images." hne]

/-! ## History preservation and the reachable-state bound -/

lemma history_handleFileChange (i : Nat) (f : Option File) (s : AppState) :
    (handleFileChange i f s).history = s.history := by
  cases f with
  | none => rfl
  | some g =>
    by_cases h : jsStartsWith g.type "image/" = true
    · rw [handleFileChange_image h]
    · rw [handleFileChange_nonimage (by simpa using h)]

lemma fuse_history_cases (s : AppState) (remote : Except String GenResponse)
    (now : Nat) :
    (handleFuseClick s remote now).history = s.history ∨
      ∃ r, (handleFuseClick s remote now).activeResult = some r ∧
        (handleFuseClick s remote now).history = r :: s.history.take 9 := by
  by_cases hl : (uploadedImages s).length = s.imageCount
  · cases remote with
    | error m => left; rw [fuse_error_eq s m now hl]
    | ok resp =>
      cases himg : findImagePart (firstCandidateParts resp) with
      | none => left; rw [fuse_noimage_eq s resp now hl himg]
      | some idata =>
        right
        exact ⟨mkResult now idata (firstCandidateParts resp),
          by rw [fuse_success_eq s resp now hl idata himg],
          by rw [fuse_success_eq s resp now hl idata himg]⟩
  · left
    rw [fuse_mismatch_eq s remote now hl]

lemma reachable_history_length_le {s : AppState} (h : Reachable s) :
    s.history.length ≤ 10 := by
  induction h with
  | init => simp [initialState]
  | countChange n hn _ ih => exact ih
  | fileChange i f _ ih => rw [history_handleFileChange]; exact ih
  | removeImage i _ ih => exact ih
  | selectHistory r hr _ ih => exact ih
  | promptChange p _ ih => exact ih
  | fuse remote now _ ih =>
    rcases fuse_history_cases _ remote now with hcase | ⟨r, _, hcase⟩
    · rw [hcase]; exact ih
    · rw [hcase]
      simp only [List.length_cons, List.length_take]
      omega

/-! ## Claim theorems -/

/-- Counterexample to C1: starting from a state whose ActiveResult holds a
previous fusion result, a fusion attempt that fails with a remote transport
error does mutate ActiveResult — the handler clears it at the start of the
attempt and a failure never restores it, so afterwards ActiveResult differs
from its pre-attempt value. -/
theorem c1_counterexample :
    (handleFuseClick
      { imageCount := 2
        images := [some ⟨"image/png", "AAA"⟩, some ⟨"image/jpeg", "BBB"⟩,
          none, none, none]
        prompt := "merge these"
        loading := false
        activeResult := some ⟨"0", "data:image/png;base64,OLD", "old caption"⟩
        history := [⟨"0", "data:image/png;base64,OLD", "old caption"⟩]
        error := "" }
      (.error "network down") 1).activeResult ≠
      some ⟨"0", "data:image/png;base64,OLD", "old caption"⟩ := by decide

/-- C1 (amended): every fusion attempt that fails — encoding-count mismatch,
remote transport error, or a response with no image item — leaves History
intact, clears loading, surfaces a non-empty error, and leaves ActiveResult
empty: the handler clears ActiveResult when the attempt starts and only a
success repopulates it, so the pre-attempt ActiveResult is preserved exactly
when it was already empty. -/
theorem c1_amended_failure_state (s : AppState)
    (remote : Except String GenResponse) (now : Nat)
    (hfail : (uploadedImages s).length ≠ s.imageCount ∨
      (∃ m, remote = .error m) ∨
      (∃ resp, remote = .ok resp ∧
        findImagePart (firstCandidateParts resp) = none)) :
    (handleFuseClick s remote now).activeResult = none ∧
    (handleFuseClick s remote now).history = s.history ∧
    (handleFuseClick s remote now).loading = false ∧
    (handleFuseClick s remote now).error ≠ "" := by
  by_cases hl : (uploadedImages s).length = s.imageCount
  · rcases hfail with hmis | ⟨m, rfl⟩ | ⟨resp, rfl, hni⟩
    · exact absurd hl hmis
    · rw [fuse_error_eq s m now hl]
      exact ⟨rfl, rfl, rfl,
        jsOrString_ne_empty m "An error occurred while fusing the images."
          (by decide)⟩
    · rw [fuse_noimage_eq s resp now hl hni]
      exact ⟨rfl, rfl, rfl,
        getD_findTextPart_ne_empty (firstCandidateParts resp)
          "The AI could not generate an image from your request." (by decide)⟩
  · rw [fuse_mismatch_eq s remote now hl]
    exact ⟨rfl, rfl, rfl,
      (by decide : "Mismatch in image processing. Please try again." ≠ "")⟩

/-- Witness for the amended C1 at the transport-error scenario. -/
theorem c1_witness :
    (handleFuseClick demoStart (.error "network down") 1).activeResult = none ∧
    (handleFuseClick demoStart (.error "network down") 1).history =
      demoStart.history ∧
    (handleFuseClick demoStart (.error "network down") 1).loading = false ∧
    (handleFuseClick demoStart (.error "network down") 1).error ≠ "" :=
  c1_amended_failure_state demoStart (.error "network down") 1
    (Or.inr (Or.inl ⟨"network down", rfl⟩))

/-- C2: reachable states never hold more than 10 history entries; a
successful fusion prepends the new result to the 9 most recent previous
entries (so a full history loses exactly its oldest, last element); every
fusion either leaves History unchanged or performs exactly that front
insertion; no other operation touches History; and after the 11 sequential
successful fusions of the concrete scenario the first result is absent and
the remaining 10 are present most-recent-first. -/
theorem c2_history_invariants :
    (∀ s : AppState, Reachable s → s.history.length ≤ 10) ∧
    (∀ (s : AppState) (resp : GenResponse) (now : Nat) (idata : InlineData),
      (uploadedImages s).length = s.imageCount →
      findImagePart (firstCandidateParts resp) = some idata →
      (handleFuseClick s (.ok resp) now).history =
        mkResult now idata (firstCandidateParts resp) :: s.history.take 9 ∧
      (s.history.length = 10 →
        (handleFuseClick s (.ok resp) now).history =
          mkResult now idata (firstCandidateParts resp) :: s.history.dropLast)) ∧
    (∀ (s : AppState) (remote : Except String GenResponse) (now : Nat),
      (handleFuseClick s remote now).history = s.history ∨
        ∃ r, (handleFuseClick s remote now).activeResult = some r ∧
          (handleFuseClick s remote now).history = r :: s.history.take 9) ∧
    (∀ (n : Nat) (s : AppState),
      (handleImageCountChange n s).history = s.history) ∧
    (∀ (i : Nat) (f : Option File) (s : AppState),
      (handleFileChange i f s).history = s.history) ∧
    (∀ (i : Nat) (s : AppState),
      (handleRemoveImage i s).history = s.history) ∧
    (∀ (r : Result) (s : AppState),
      (handleSelectHistory r s).history = s.history) ∧
    (∀ (p : String) (s : AppState), (setPrompt p s).history = s.history) ∧
    ((demoRun 11).history =
      [demoResult 11, demoResult 10, demoResult 9, demoResult 8, demoResult 7,
       demoResult 6, demoResult 5, demoResult 4, demoResult 3, demoResult 2] ∧
      demoResult 1 ∉ (demoRun 11).history) := by
  refine ⟨fun s h => reachable_history_length_le h, ?_,
    fun s remote now => fuse_history_cases s remote now,
    fun n s => rfl,
    fun i f s => history_handleFileChange i f s,
    fun i s => rfl, fun r s => rfl, fun p s => rfl,
    by decide, by decide⟩
  intro s resp now idata hlen himg
  constructor
  · rw [fuse_success_eq s resp now hlen idata himg]
  · intro h10
    rw [fuse_success_eq s resp now hlen idata himg,
      List.dropLast_eq_take, h10]

/-- Witness for C2's success clause at the first fusion of the scenario. -/
theorem c2_witness :
    (handleFuseClick demoStart (.ok (demoResp 1)) 1).history =
      mkResult 1 ⟨"image/png", "P1"⟩ (firstCandidateParts (demoResp 1)) ::
        demoStart.history.take 9 :=
  (c2_history_invariants.2.1 demoStart (demoResp 1) 1 ⟨"image/png", "P1"⟩
    (by decide) (by decide)).1

/-- C3: the fuse action is enabled (the disabling predicate is false) exactly
when the trimmed prompt is non-empty, every slot with index below the image
count is populated, and no fusion is pending. -/
theorem c3_fuse_enabled_iff (s : AppState)
    (h5 : s.images.length = 5) (hc : s.imageCount ≤ 5) :
    isFuseDisabled s = false ↔
      (jsTrim s.prompt ≠ "" ∧
       (∀ i, i < s.imageCount → (s.images.getD i none).isSome) ∧
       s.loading = false) := by
  have hlen : s.imageCount ≤ s.images.length := by omega
  have hiff := length_filterMap_take_eq_iff s.imageCount s.images hlen
  simp only [isFuseDisabled, Bool.or_eq_false_iff, beq_eq_false_iff_ne,
    bne_eq_false_iff_eq, ne_eq, uploadedImages]
  rw [hiff]
  tauto

/-- Witness for C3 at the populated idle demo state. -/
theorem c3_witness : isFuseDisabled demoStart = false :=
  (c3_fuse_enabled_iff demoStart (by decide) (by decide)).mpr
    ⟨by decide, by decide, rfl⟩

/-- C4: when the first candidate's first image-carrying part holds mime-type
`M` and payload `P` and its first text-carrying part holds `T`, the fusion
succeeds and both ActiveResult and the head of History equal the result
whose image is the data URL built from `M` and `P` and whose caption is
`T`. -/
theorem c4_success_result (s : AppState) (resp : GenResponse) (now : Nat)
    (M P T : String)
    (hlen : (uploadedImages s).length = s.imageCount)
    (himg : findImagePart (firstCandidateParts resp) = some ⟨M, P⟩)
    (htxt : findTextPart (firstCandidateParts resp) = some T) :
    (handleFuseClick s (.ok resp) now).activeResult =
      some ⟨toString now, "data:" ++ M ++ ";base64," ++ P, T⟩ ∧
    (handleFuseClick s (.ok resp) now).history.head? =
      some ⟨toString now, "data:" ++ M ++ ";base64," ++ P, T⟩ := by
  rw [fuse_success_eq s resp now hlen ⟨M, P⟩ himg]
  simp [mkResult, htxt]

/-- Witness for C4 at the spec's concrete success scenario. -/
theorem c4_witness :
    (handleFuseClick demoStart (.ok c4Resp) 5).activeResult =
      some ⟨toString 5, "data:" ++ "image/png" ++ ";base64," ++ "QQQQ",
        "Fused!"⟩ :=
  (c4_success_result demoStart c4Resp 5 "image/png" "QQQQ" "Fused!"
    (by decide) (by decide) (by decide)).1

/-- C5: when the first candidate has no image-carrying part the fusion
fails: the surfaced error is the first (truthy) text part when one exists
and the fixed fallback otherwise, History is unchanged, and no result is
installed. -/
theorem c5_noimage_error (s : AppState) (resp : GenResponse) (now : Nat)
    (hlen : (uploadedImages s).length = s.imageCount)
    (hni : findImagePart (firstCandidateParts resp) = none) :
    (∀ T, findTextPart (firstCandidateParts resp) = some T →
      (handleFuseClick s (.ok resp) now).error = T) ∧
    (findTextPart (firstCandidateParts resp) = none →
      (handleFuseClick s (.ok resp) now).error =
        "The AI could not generate an image from your request.") ∧
    (handleFuseClick s (.ok resp) now).history = s.history ∧
    (handleFuseClick s (.ok resp) now).activeResult = none := by
  rw [fuse_noimage_eq s resp now hlen hni]
  refine ⟨?_, ?_, rfl, rfl⟩
  · intro T hT
    simp [hT]
  · intro hT
    simp [hT]

/-- Witness for C5 at the spec's "unsafe content" scenario. -/
theorem c5_witness :
    (handleFuseClick demoStart (.ok c5Resp) 5).error = "unsafe content" :=
  (c5_noimage_error demoStart c5Resp 5 (by decide) (by decide)).1
    "unsafe content" (by decide)

/-- Counterexample to C6: the validation message the handler surfaces for a
non-image file carries a trailing period — it is
"Please upload only image files." and not the claimed
"Please upload only image files" — while the slots are indeed left
unchanged. -/
theorem c6_counterexample :
    (handleFileChange 0 (some ⟨"text/plain", "TTT"⟩) demoStart).images =
      demoStart.images ∧
    (handleFileChange 0 (some ⟨"text/plain", "TTT"⟩) demoStart).error =
      "Please upload only image files." ∧
    "Please upload only image files." ≠ "Please upload only image files" := by
  refine ⟨rfl, rfl, by decide⟩

/-- C6 (amended): assigning a file whose media type does not start with
"image/" leaves every slot unchanged and surfaces the validation error
"Please upload only image files." (with its trailing period); assigning a
file whose media type does indicate an image stores it in the addressed
slot and clears any outstanding error. -/
theorem c6_amended_file_validation (i : Nat) (f : File) (s : AppState) :
    (jsStartsWith f.type "image/" = false →
      (handleFileChange i (some f) s).images = s.images ∧
      (handleFileChange i (some f) s).error =
        "Please upload only image files.") ∧
    (jsStartsWith f.type "image/" = true →
      (handleFileChange i (some f) s).images = s.images.set i (some f) ∧
      (handleFileChange i (some f) s).error = "") := by
  constructor
  · intro h
    rw [handleFileChange_nonimage h]
    exact ⟨rfl, rfl⟩
  · intro h
    rw [handleFileChange_image h]
    exact ⟨rfl, rfl⟩

/-- Witness for the amended C6: a text file is rejected without touching the
slots; a gif file is accepted and clears an outstanding error. -/
theorem c6_witness :
    ((handleFileChange 0 (some ⟨"text/plain", "TTT"⟩) demoStart).images =
        demoStart.images ∧
      (handleFileChange 0 (some ⟨"text/plain", "TTT"⟩) demoStart).error =
        "Please upload only image files.") ∧
    ((handleFileChange 2 (some ⟨"image/gif", "GGG"⟩)
        { demoStart with error := "oops" }).images =
        { demoStart with error := "oops" }.images.set 2 (some ⟨"image/gif", "GGG"⟩) ∧
      (handleFileChange 2 (some ⟨"image/gif", "GGG"⟩)
        { demoStart with error := "oops" }).error = "") :=
  ⟨(c6_amended_file_validation 0 ⟨"text/plain", "TTT"⟩ demoStart).1 (by decide),
   (c6_amended_file_validation 2 ⟨"image/gif", "GGG"⟩
      { demoStart with error := "oops" }).2 (by decide)⟩

/-- Counterexample to C7: calling the file-change handler with an empty file
does not clear the addressed slot — the handler is a no-op there, so a
populated slot 0 keeps its file instead of becoming empty. -/
theorem c7_counterexample :
    (handleFileChange 0 none demoStart).images.getD 0 none =
      some ⟨"image/png", "AAA"⟩ ∧
    (handleFileChange 0 none demoStart).images.getD 0 none ≠ none := by
  refine ⟨rfl, by decide⟩

/-- C7 (amended): calling the file-change handler with an empty file leaves
the whole state unchanged (it is a no-op, e.g. when the browse dialog is
cancelled); unconditional clearing of a slot is performed by the dedicated
remove-image handler, which empties exactly the addressed slot. -/
theorem c7_amended_nullfile_noop :
    (∀ (i : Nat) (s : AppState), handleFileChange i none s = s) ∧
    (∀ (i : Nat) (s : AppState),
      (handleRemoveImage i s).images.getD i none = none ∧
      ∀ j, j ≠ i →
        (handleRemoveImage i s).images.getD j none = s.images.getD j none) :=
  ⟨fun _ _ => rfl,
   fun i s => ⟨getD_set_self s.images i,
     fun j hj => getD_set_ne s.images i j hj⟩⟩

/-- Witness for the amended C7: the no-op on slot 1 and the removal of
slot 0 leaving slot 1 intact, at the demo state. -/
theorem c7_witness :
    handleFileChange 1 none demoStart = demoStart ∧
    (handleRemoveImage 0 demoStart).images.getD 0 none = none ∧
    (handleRemoveImage 0 demoStart).images.getD 1 none =
      demoStart.images.getD 1 none :=
  ⟨c7_amended_nullfile_noop.1 1 demoStart,
   (c7_amended_nullfile_noop.2 0 demoStart).1,
   (c7_amended_nullfile_noop.2 0 demoStart).2 1 (by decide)⟩

/-- C8: for every count n in 2..5, changing the image count to n makes n the
number of addressable slots, preserves the contents of every slot with index
below n, and discards (clears) the contents of every slot with index at
least n; the underlying slot array keeps its length. -/
theorem c8_image_count_change (n : Nat) (s : AppState)
    (_hn : 2 ≤ n ∧ n ≤ 5) :
    (handleImageCountChange n s).imageCount = n ∧
    (∀ i, i < n →
      (handleImageCountChange n s).images.getD i none =
        s.images.getD i none) ∧
    (∀ i, n ≤ i →
      (handleImageCountChange n s).images.getD i none = none) ∧
    (handleImageCountChange n s).images.length = s.images.length :=
  ⟨rfl,
   fun i hi => clearFrom_getD_lt n i s.images hi,
   fun i hi => clearFrom_getD_ge n i s.images hi,
   clearFrom_length n s.images⟩

/-- Witness for C8: shrinking a 5-slot selection to 3 keeps slots 0 and 1
and clears slot 4, at the demo state. -/
theorem c8_witness :
    (handleImageCountChange 3 demoStart).imageCount = 3 ∧
    (handleImageCountChange 3 demoStart).images.getD 1 none =
      demoStart.images.getD 1 none ∧
    (handleImageCountChange 3 demoStart).images.getD 4 none = none :=
  ⟨(c8_image_count_change 3 demoStart ⟨by decide, by decide⟩).1,
   (c8_image_count_change 3 demoStart ⟨by decide, by decide⟩).2.1 1 (by decide),
   (c8_image_count_change 3 demoStart ⟨by decide, by decide⟩).2.2.1 4 (by decide)⟩

/-- C9: when every text part of the first candidate is empty (so the
response "contains a text part carrying the empty string" and no non-empty
one), empty text behaves like absent text: a fusion that finds an image
part captions the result with the fallback "Here is your fused image!",
and a fusion that finds no image part surfaces the fixed fallback error
"The AI could not generate an image from your request.". -/
theorem c9_empty_text_fallback (s : AppState) (resp : GenResponse) (now : Nat)
    (hlen : (uploadedImages s).length = s.imageCount)
    (hallempty : ∀ p ∈ firstCandidateParts resp, p.text.getD "" = "")
    (_hhasempty : ∃ p ∈ firstCandidateParts resp, p.text = some "") :
    (∀ idata, findImagePart (firstCandidateParts resp) = some idata →
      (handleFuseClick s (.ok resp) now).activeResult =
        some ⟨toString now,
          "data:" ++ idata.mimeType ++ ";base64," ++ idata.data,
          "Here is your fused image!"⟩) ∧
    (findImagePart (firstCandidateParts resp) = none →
      (handleFuseClick s (.ok resp) now).error =
        "The AI could not generate an image from your request.") := by
  have htxt : findTextPart (firstCandidateParts resp) = none :=
    findTextPart_eq_none_of_all_empty hallempty
  constructor
  · intro idata himg
    rw [fuse_success_eq s resp now hlen idata himg]
    simp [mkResult, htxt]
  · intro hni
    rw [fuse_noimage_eq s resp now hlen hni]
    simp [htxt]

/-- Witness for C9 at a response with an image part and an empty text part. -/
theorem c9_witness :
    (handleFuseClick demoStart (.ok c9Resp) 5).activeResult =
      some ⟨toString 5, "data:" ++ "image/png" ++ ";base64," ++ "RRR",
        "Here is your fused image!"⟩ :=
  (c9_empty_text_fallback demoStart c9Resp 5 (by decide) (by decide)
    ⟨⟨none, some ""⟩, by decide, rfl⟩).1 ⟨"image/png", "RRR"⟩ (by decide)

/-- C10: the remove-image action empties exactly the addressed slot and
changes nothing else — in particular an outstanding validation error
survives it; the error is cleared only by a successful image assignment
(or at the start of a fusion attempt, whose surviving value on success is
empty), while a null file change, a count change, a history selection and
a prompt change all leave the error untouched. -/
theorem c10_remove_image_frame (i : Nat) (s : AppState) :
    ((handleRemoveImage i s).images.getD i none = none ∧
     (∀ j, j ≠ i →
       (handleRemoveImage i s).images.getD j none = s.images.getD j none) ∧
     (handleRemoveImage i s).error = s.error ∧
     (handleRemoveImage i s).activeResult = s.activeResult ∧
     (handleRemoveImage i s).history = s.history ∧
     (handleRemoveImage i s).prompt = s.prompt ∧
     (handleRemoveImage i s).imageCount = s.imageCount) ∧
    (∀ f : File, jsStartsWith f.type "image/" = true →
      (handleFileChange i (some f) s).error = "") ∧
    (handleFileChange i none s).error = s.error ∧
    (∀ n, (handleImageCountChange n s).error = s.error) ∧
    (∀ r : Result, (handleSelectHistory r s).error = s.error) ∧
    (∀ p : String, (setPrompt p s).error = s.error) ∧
    (∀ (resp : GenResponse) (now : Nat) (idata : InlineData),
      (uploadedImages s).length = s.imageCount →
      findImagePart (firstCandidateParts resp) = some idata →
      (handleFuseClick s (.ok resp) now).error = "") := by
  refine ⟨⟨getD_set_self s.images i,
      fun j hj => getD_set_ne s.images i j hj,
      rfl, rfl, rfl, rfl, rfl⟩,
    ?_, rfl, fun n => rfl, fun r => rfl, fun p => rfl, ?_⟩
  · intro f hf
    rw [handleFileChange_image hf]
  · intro resp now idata hlen himg
    rw [fuse_success_eq s resp now hlen idata himg]

/-- Witness for C10: removing slot 0 keeps the outstanding error "oops" and
slot 1, and a valid assignment clears the error, at the demo state. -/
theorem c10_witness :
    (handleRemoveImage 0 { demoStart with error := "oops" }).error = "oops" ∧
    (handleRemoveImage 0 { demoStart with error := "oops" }).images.getD 1 none =
      { demoStart with error := "oops" }.images.getD 1 none ∧
    (handleFileChange 0 (some ⟨"image/gif", "GGG"⟩)
      { demoStart with error := "oops" }).error = "" :=
  ⟨(c10_remove_image_frame 0 { demoStart with error := "oops" }).1.2.2.1,
   (c10_remove_image_frame 0 { demoStart with error := "oops" }).1.2.1 1
     (by decide),
   (c10_remove_image_frame 0 { demoStart with error := "oops" }).2.1
     ⟨"image/gif", "GGG"⟩ (by decide)⟩

end ImageFusion
